import Mathlib

set_option autoImplicit false

/-!
Shallow embedding of `src/streamlog.hpp` (class `streamlog : public std::streambuf`).

Modelling decisions, each tied to the source:
* A stream buffer identity (a `std::streambuf *` value) is a `Nat`; an
  `std::ostream` is modelled by its one mutable slot touched here, `rdbuf`.
* The two spdlog sinks (`screen`, `logger`) are opaque: a call to one of their
  per-severity operations is recorded as a `SinkCall` event; operations that can
  invoke sinks return the list of calls they made, in order.
* `traits_type::to_char_type` for `char_traits<char>` is the `int -> char`
  conversion, i.e. truncation to the low byte.
* The constructor `streamlog::streamlog` captures `o.rdbuf()` into `srcbuf`,
  builds the wrapper `stream` over `srcbuf`, installs `this` as the new buffer
  of the stream, and selects `fn` by a switch on `level`; the destructor restores
  `srcbuf` into the buffer slot of the stream and does nothing else.
-/

/-- The closed severity set, from `enum class loglevel { info, debug, error }`. -/
inductive streamlog.loglevel where
  | info
  | debug
  | error
deriving DecidableEq, Repr

/-- One sink invocation: which sink (`screen` = console, `logger` = persistent),
which same-named severity operation, and the text passed to it. -/
inductive SinkCall where
  | screenDebug (msg : String)
  | screenInfo  (msg : String)
  | screenError (msg : String)
  | loggerDebug (msg : String)
  | loggerInfo  (msg : String)
  | loggerError (msg : String)
deriving DecidableEq, Repr

/-- Is this call an invocation of the console sink (`screen->...`)? -/
def SinkCall.isScreen : SinkCall → Bool
  | .screenDebug _ => true
  | .screenInfo _ => true
  | .screenError _ => true
  | .loggerDebug _ => false
  | .loggerInfo _ => false
  | .loggerError _ => false

/-- Is this call an invocation of the persistent sink (`logger->...`)? -/
def SinkCall.isLogger : SinkCall → Bool
  | .screenDebug _ => false
  | .screenInfo _ => false
  | .screenError _ => false
  | .loggerDebug _ => true
  | .loggerInfo _ => true
  | .loggerError _ => true

/-- Member `streamlog::debug`: console gets `"\e[00m" + msg + "\e[00m"`, then
the persistent logger gets plain `msg` (`\e` is the escape byte 0x1b). -/
def streamlog.debug (msg : String) : List SinkCall :=
  [SinkCall.screenDebug ("\x1b[00m" ++ msg ++ "\x1b[00m"), SinkCall.loggerDebug msg]

/-- Member `streamlog::info`: console gets `"\e[93m" + msg + "\e[00m"`, then
the persistent logger gets plain `msg`. -/
def streamlog.info (msg : String) : List SinkCall :=
  [SinkCall.screenInfo ("\x1b[93m" ++ msg ++ "\x1b[00m"), SinkCall.loggerInfo msg]

/-- Member `streamlog::error`: console gets `"\e[91m" + msg + "\e[00m"`, then
the persistent logger gets plain `msg`. -/
def streamlog.error (msg : String) : List SinkCall :=
  [SinkCall.screenError ("\x1b[91m" ++ msg ++ "\x1b[00m"), SinkCall.loggerError msg]

/-- The `switch(level)` of the constructor, selecting the callback bound into `fn`. -/
def streamlog.selectFn : streamlog.loglevel → String → List SinkCall
  | .debug => streamlog.debug
  | .info => streamlog.info
  | .error => streamlog.error

/-- The slice of a `std::ostream` this code touches: its backing-buffer slot
(`rdbuf`), holding the identity of the installed `std::streambuf`. -/
structure Ostream where
  rdbuf : Nat
deriving DecidableEq, Repr

/-- State of one `streamlog` object.  `selfId` is the identity of the object as
a `std::streambuf` (the `this` pointer installed into the stream); the other
fields mirror the data members of the class. -/
structure streamlog where
  selfId : Nat
  srcbuf : Nat
  streamBuf : Nat
  level : streamlog.loglevel
  sbuffer : String
  fn : String → List SinkCall

/-- Constructor `streamlog::streamlog(std::ostream &o, const loglevel &l)`:
capture `srcbuf = o.rdbuf()`, wrap it in the owned `stream`, install `this`
(`o.rdbuf(this)`), and select `fn` from `l`.  Returns the new object together
with the mutated stream. -/
def streamlog.init (selfId : Nat) (o : Ostream) (l : streamlog.loglevel) :
    streamlog × Ostream :=
  ({ selfId := selfId
     srcbuf := o.rdbuf
     streamBuf := o.rdbuf
     level := l
     sbuffer := ""
     fn := streamlog.selectFn l },
   { o with rdbuf := selfId })

/-- Destructor `streamlog::~streamlog()`: the sole statement is
`src.rdbuf(srcbuf)`.  Returns the mutated stream and the (empty) list of sink
calls made. -/
def streamlog.destroy (sl : streamlog) (o : Ostream) : Ostream × List SinkCall :=
  ({ o with rdbuf := sl.srcbuf }, [])

/-- `traits_type::to_char_type(c)` for `char_traits<char>`: conversion of the
`int` to a `char`, i.e. the low byte of `c`. -/
def to_char_type (c : Int) : Char :=
  Char.ofNat (c % 256).toNat

/-- `traits_type::eof()`. -/
def streamlog.eof : Int := -1

/-- `virtual int overflow(int c)`: append `to_char_type(c)` to `sbuffer` and
return 0. -/
def streamlog.overflow (sl : streamlog) (c : Int) : streamlog × Int :=
  ({ sl with sbuffer := sl.sbuffer.push (to_char_type c) }, 0)

/-- `int sync(void)`: if `sbuffer` is non-empty, call `fn(sbuffer)` then clear
`sbuffer`; always return 0.  Result: (new state, sink calls made, return). -/
def streamlog.sync (sl : streamlog) : streamlog × List SinkCall × Int :=
  if sl.sbuffer = "" then (sl, [], 0)
  else ({ sl with sbuffer := "" }, sl.fn sl.sbuffer, 0)

/-- An operation of the public stream-write contract between construction and
destruction: a character arriving through `overflow`, or a `sync`. -/
inductive Op where
  | accept (c : Int)
  | flush

/-- State transition of one public operation (sink calls and returns dropped). -/
def streamlog.step (sl : streamlog) : Op → streamlog
  | Op.accept c => (sl.overflow c).1
  | Op.flush => (sl.sync).1

/-- Run a sequence of public operations. -/
def streamlog.run (sl : streamlog) (ops : List Op) : streamlog :=
  ops.foldl streamlog.step sl

/-- Feed a sequence of units through `overflow`, in order. -/
def streamlog.acceptAll (sl : streamlog) (cs : List Int) : streamlog :=
  cs.foldl (fun s c => (s.overflow c).1) sl

/-- The reset escape sequence used as a console decoration marker. -/
def streamlog.reset : String := "\x1b[00m"

/- ------------------------------------------------------------------ -/
/- Helper lemmas                                                      -/
/- ------------------------------------------------------------------ -/

theorem streamlog.step_preserves (sl : streamlog) (op : Op) :
    (sl.step op).selfId = sl.selfId ∧ (sl.step op).srcbuf = sl.srcbuf ∧
    (sl.step op).level = sl.level ∧ (sl.step op).fn = sl.fn := by
  cases op with
  | accept c => exact ⟨rfl, rfl, rfl, rfl⟩
  | flush =>
    unfold streamlog.step streamlog.sync
    by_cases h : sl.sbuffer = ""
    · rw [if_pos h]; exact ⟨rfl, rfl, rfl, rfl⟩
    · rw [if_neg h]; exact ⟨rfl, rfl, rfl, rfl⟩

theorem streamlog.run_preserves (sl : streamlog) (ops : List Op) :
    (sl.run ops).selfId = sl.selfId ∧ (sl.run ops).srcbuf = sl.srcbuf ∧
    (sl.run ops).level = sl.level ∧ (sl.run ops).fn = sl.fn := by
  induction ops generalizing sl with
  | nil => exact ⟨rfl, rfl, rfl, rfl⟩
  | cons op ops ih =>
    obtain ⟨a1, a2, a3, a4⟩ := streamlog.step_preserves sl op
    obtain ⟨b1, b2, b3, b4⟩ := ih (sl.step op)
    exact ⟨b1.trans a1, b2.trans a2, b3.trans a3, b4.trans a4⟩

theorem streamlog.acceptAll_sbuffer (sl : streamlog) (cs : List Int) :
    (sl.acceptAll cs).sbuffer = ⟨sl.sbuffer.data ++ cs.map to_char_type⟩ := by
  induction cs generalizing sl with
  | nil => simp [streamlog.acceptAll]
  | cons c cs ih =>
    have h := ih ((sl.overflow c).1)
    simp only [streamlog.acceptAll, List.foldl] at h ⊢
    rw [h]
    simp [streamlog.overflow, String.push]

theorem streamlog.acceptAll_fn (sl : streamlog) (cs : List Int) :
    (sl.acceptAll cs).fn = sl.fn := by
  induction cs generalizing sl with
  | nil => rfl
  | cons c cs ih => exact ih ((sl.overflow c).1)

/- ------------------------------------------------------------------ -/
/- Claim theorems                                                     -/
/- ------------------------------------------------------------------ -/

/-- C1: Destroying a session restores the backing-buffer slot of the target stream
to exactly the buffer reference captured at construction, no matter which
public operations (and how many flushes) ran in between; with two chained
sessions A then B on the same stream, destroying B places the buffer of A (not the
pre-A original) back in the slot. -/
theorem streamlog.destroy_restores_construction_buffer
    (o o2 : Ostream) (l lB : streamlog.loglevel) (idA idB : Nat)
    (ops opsB : List Op) (hA : idA ≠ o.rdbuf) :
    ((((streamlog.init idA o l).1.run ops).destroy o2).1.rdbuf = o.rdbuf)
    ∧ ((((streamlog.init idB (streamlog.init idA o l).2 lB).1.run opsB).destroy
          (streamlog.init idB (streamlog.init idA o l).2 lB).2).1.rdbuf = idA)
    ∧ ((((streamlog.init idB (streamlog.init idA o l).2 lB).1.run opsB).destroy
          (streamlog.init idB (streamlog.init idA o l).2 lB).2).1.rdbuf ≠ o.rdbuf) := by
  refine ⟨?_, ?_, ?_⟩
  · exact (streamlog.run_preserves (streamlog.init idA o l).1 ops).2.1
  · exact (streamlog.run_preserves
      (streamlog.init idB (streamlog.init idA o l).2 lB).1 opsB).2.1
  · have h := (streamlog.run_preserves
      (streamlog.init idB (streamlog.init idA o l).2 lB).1 opsB).2.1
    intro hcon
    exact hA (h.symm.trans hcon)

/-- Witness for C1 at a concrete chained scenario. -/
theorem streamlog.destroy_restores_construction_buffer_witness :
    (1 : Nat) ≠ (Ostream.mk 0).rdbuf
  ∧ (((streamlog.init 1 ⟨0⟩ streamlog.loglevel.info).1.run [Op.flush]).destroy
        ⟨5⟩).1.rdbuf = (Ostream.mk 0).rdbuf
  ∧ (((streamlog.init 2 (streamlog.init 1 ⟨0⟩ streamlog.loglevel.info).2
          streamlog.loglevel.error).1.run [Op.accept 104]).destroy
        (streamlog.init 2 (streamlog.init 1 ⟨0⟩ streamlog.loglevel.info).2
          streamlog.loglevel.error).2).1.rdbuf = 1
  ∧ (((streamlog.init 2 (streamlog.init 1 ⟨0⟩ streamlog.loglevel.info).2
          streamlog.loglevel.error).1.run [Op.accept 104]).destroy
        (streamlog.init 2 (streamlog.init 1 ⟨0⟩ streamlog.loglevel.info).2
          streamlog.loglevel.error).2).1.rdbuf ≠ (Ostream.mk 0).rdbuf :=
  ⟨by decide,
   streamlog.destroy_restores_construction_buffer ⟨0⟩ ⟨5⟩
     streamlog.loglevel.info streamlog.loglevel.error 1 2
     [Op.flush] [Op.accept 104] (by decide)⟩

/-- C2: starting from a freshly flushed (empty) buffer, accepting a non-empty
sequence of units and then syncing hands the bound dispatch function exactly
the concatenation of those units, in order. -/
theorem streamlog.sync_dispatches_concatenation
    (sl : streamlog) (cs : List Int) (h0 : sl.sbuffer = "") (hne : cs ≠ []) :
    ((sl.acceptAll cs).sync).2.1 = sl.fn ⟨cs.map to_char_type⟩ := by
  have hb : (sl.acceptAll cs).sbuffer = ⟨cs.map to_char_type⟩ := by
    rw [streamlog.acceptAll_sbuffer, h0]
    simp
  have hne2 : (sl.acceptAll cs).sbuffer ≠ "" := by
    rw [hb]
    intro h
    apply hne
    have h2 : cs.map to_char_type = [] := congrArg String.data h
    exact List.map_eq_nil_iff.mp h2
  unfold streamlog.sync
  rw [if_neg hne2, hb, streamlog.acceptAll_fn]

/-- Witness for C2: two characters accepted, then a sync. -/
theorem streamlog.sync_dispatches_concatenation_witness :
    (streamlog.init 1 ⟨0⟩ streamlog.loglevel.debug).1.sbuffer = ""
  ∧ ([104, 105] : List Int) ≠ []
  ∧ (((streamlog.init 1 ⟨0⟩ streamlog.loglevel.debug).1.acceptAll [104, 105]).sync).2.1
      = (streamlog.init 1 ⟨0⟩ streamlog.loglevel.debug).1.fn
          ⟨([104, 105] : List Int).map to_char_type⟩ :=
  ⟨rfl, by decide,
   streamlog.sync_dispatches_concatenation
     (streamlog.init 1 ⟨0⟩ streamlog.loglevel.debug).1 [104, 105] rfl (by decide)⟩

/-- C3: flushing a non-empty buffer holding t from a session bound to debug,
info or error yields exactly one console invocation of the same-named
operation with t wrapped in the fixed leading/trailing markers of that level, and
exactly one persistent invocation of the same-named operation with plain t. -/
theorem streamlog.flush_decorates_per_level
    (o : Ostream) (n : Nat) (t : String) (h : t ≠ "") :
    (({ (streamlog.init n o streamlog.loglevel.debug).1 with sbuffer := t }).sync).2.1
        = [SinkCall.screenDebug ("\x1b[00m" ++ t ++ "\x1b[00m"), SinkCall.loggerDebug t]
  ∧ (({ (streamlog.init n o streamlog.loglevel.info).1 with sbuffer := t }).sync).2.1
        = [SinkCall.screenInfo ("\x1b[93m" ++ t ++ "\x1b[00m"), SinkCall.loggerInfo t]
  ∧ (({ (streamlog.init n o streamlog.loglevel.error).1 with sbuffer := t }).sync).2.1
        = [SinkCall.screenError ("\x1b[91m" ++ t ++ "\x1b[00m"), SinkCall.loggerError t] := by
  refine ⟨?_, ?_, ?_⟩ <;>
    simp [streamlog.sync, h, streamlog.init, streamlog.selectFn,
      streamlog.debug, streamlog.info, streamlog.error]

/-- Witness for C3 at t = "x". -/
theorem streamlog.flush_decorates_per_level_witness :
    ("x" : String) ≠ ""
  ∧ ((({ (streamlog.init 1 ⟨0⟩ streamlog.loglevel.debug).1 with sbuffer := "x" }).sync).2.1
        = [SinkCall.screenDebug ("\x1b[00m" ++ "x" ++ "\x1b[00m"), SinkCall.loggerDebug "x"]
  ∧ (({ (streamlog.init 1 ⟨0⟩ streamlog.loglevel.info).1 with sbuffer := "x" }).sync).2.1
        = [SinkCall.screenInfo ("\x1b[93m" ++ "x" ++ "\x1b[00m"), SinkCall.loggerInfo "x"]
  ∧ (({ (streamlog.init 1 ⟨0⟩ streamlog.loglevel.error).1 with sbuffer := "x" }).sync).2.1
        = [SinkCall.screenError ("\x1b[91m" ++ "x" ++ "\x1b[00m"), SinkCall.loggerError "x"]) :=
  ⟨by decide, streamlog.flush_decorates_per_level ⟨0⟩ 1 "x" (by decide)⟩

/-- C4: every run of the selected handler makes exactly two sink calls, the
console one first and the persistent one second, unconditionally. -/
theorem streamlog.console_precedes_persistent
    (o : Ostream) (n : Nat) (l : streamlog.loglevel) (t : String) :
    ∃ c p, (streamlog.init n o l).1.fn t = [c, p]
      ∧ c.isScreen = true ∧ p.isLogger = true := by
  cases l with
  | info => exact ⟨_, _, rfl, rfl, rfl⟩
  | debug => exact ⟨_, _, rfl, rfl, rfl⟩
  | error => exact ⟨_, _, rfl, rfl, rfl⟩

/-- C5: syncing an empty buffer makes zero sink calls and leaves the whole
state unchanged; syncing a non-empty buffer hands the full content to the
bound dispatch function as one unit and clears the buffer. -/
theorem streamlog.sync_empty_noop_nonempty_dispatch (sl : streamlog) :
    (sl.sbuffer = "" → (sl.sync).2.1 = [] ∧ (sl.sync).1 = sl)
  ∧ (sl.sbuffer ≠ "" →
      (sl.sync).2.1 = sl.fn sl.sbuffer ∧ (sl.sync).1.sbuffer = "") := by
  constructor
  · intro h
    unfold streamlog.sync
    rw [if_pos h]
    exact ⟨rfl, rfl⟩
  · intro h
    unfold streamlog.sync
    rw [if_neg h]
    exact ⟨rfl, rfl⟩

/-- Witness for C5: one empty-buffer session and one holding "x". -/
theorem streamlog.sync_empty_noop_nonempty_dispatch_witness :
    ((streamlog.init 1 ⟨0⟩ streamlog.loglevel.info).1.sbuffer = ""
      ∧ ((streamlog.init 1 ⟨0⟩ streamlog.loglevel.info).1.sync).2.1 = []
      ∧ ((streamlog.init 1 ⟨0⟩ streamlog.loglevel.info).1.sync).1
          = (streamlog.init 1 ⟨0⟩ streamlog.loglevel.info).1)
  ∧ (({ (streamlog.init 1 ⟨0⟩ streamlog.loglevel.info).1 with sbuffer := "x" }).sbuffer ≠ ""
      ∧ (({ (streamlog.init 1 ⟨0⟩ streamlog.loglevel.info).1 with sbuffer := "x" }).sync).2.1
          = ({ (streamlog.init 1 ⟨0⟩ streamlog.loglevel.info).1 with sbuffer := "x" }).fn "x"
      ∧ (({ (streamlog.init 1 ⟨0⟩ streamlog.loglevel.info).1 with
              sbuffer := "x" }).sync).1.sbuffer = "") :=
  ⟨⟨rfl, (streamlog.sync_empty_noop_nonempty_dispatch
      (streamlog.init 1 ⟨0⟩ streamlog.loglevel.info).1).1 rfl⟩,
   ⟨by decide, (streamlog.sync_empty_noop_nonempty_dispatch
      { (streamlog.init 1 ⟨0⟩ streamlog.loglevel.info).1 with sbuffer := "x" }).2 (by decide)⟩⟩

/-- C6: destroying a session with non-empty pending content makes zero sink
calls and its only effect is restoring the captured buffer into the buffer
slot of the stream; the pending content is dropped. -/
theorem streamlog.destroy_emits_nothing
    (sl : streamlog) (o : Ostream) (_h : sl.sbuffer ≠ "") :
    (sl.destroy o).2 = [] ∧ (sl.destroy o).1 = { o with rdbuf := sl.srcbuf } :=
  ⟨rfl, rfl⟩

/-- Witness for C6 with pending content "x". -/
theorem streamlog.destroy_emits_nothing_witness :
    ({ (streamlog.init 1 ⟨0⟩ streamlog.loglevel.debug).1 with sbuffer := "x" }).sbuffer ≠ ""
  ∧ (({ (streamlog.init 1 ⟨0⟩ streamlog.loglevel.debug).1 with
        sbuffer := "x" }).destroy ⟨7⟩).2 = []
  ∧ (({ (streamlog.init 1 ⟨0⟩ streamlog.loglevel.debug).1 with
        sbuffer := "x" }).destroy ⟨7⟩).1 = Ostream.mk 0 :=
  ⟨by decide,
   streamlog.destroy_emits_nothing
     { (streamlog.init 1 ⟨0⟩ streamlog.loglevel.debug).1 with sbuffer := "x" } ⟨7⟩
     (by decide)⟩

/-- C7: overflow is total and never rejects: for every state and every int
input it appends the converted unit to the pending buffer and returns 0,
which is not the failure sentinel eof. -/
theorem streamlog.overflow_total (sl : streamlog) (c : Int) :
    (sl.overflow c).2 = 0
  ∧ (sl.overflow c).2 ≠ streamlog.eof
  ∧ (sl.overflow c).1 = { sl with sbuffer := sl.sbuffer.push (to_char_type c) } :=
  ⟨rfl, by show (0 : Int) ≠ streamlog.eof; decide, rfl⟩

/-- C8: the level bound at construction and the dispatch function selected
from it at construction survive every sequence of public operations
unchanged; the function is exactly the one the switch in the constructor picks. -/
theorem streamlog.level_and_fn_immutable
    (o : Ostream) (n : Nat) (l : streamlog.loglevel) (ops : List Op) :
    ((streamlog.init n o l).1.run ops).level = l
  ∧ ((streamlog.init n o l).1.run ops).fn = streamlog.selectFn l
  ∧ (streamlog.init n o l).1.fn = streamlog.selectFn l := by
  refine ⟨?_, ?_, rfl⟩
  · exact (streamlog.run_preserves (streamlog.init n o l).1 ops).2.2.1
  · exact (streamlog.run_preserves (streamlog.init n o l).1 ops).2.2.2

/-- C9: for every int input, overflow appends exactly the low-byte character
conversion of it and returns 0; the eof sentinel -1 gets no special treatment
and is stored as its truncated character value 0xFF. -/
theorem streamlog.overflow_eof_not_special (sl : streamlog) (c : Int) :
    (sl.overflow c).1.sbuffer = sl.sbuffer.push (to_char_type c)
  ∧ (sl.overflow c).2 = 0
  ∧ (sl.overflow streamlog.eof).1.sbuffer
      = sl.sbuffer.push (Char.ofNat 255)
  ∧ to_char_type streamlog.eof = Char.ofNat 255 :=
  ⟨rfl, rfl, rfl, by decide⟩

/-- C10: the trailing console marker is the same reset sequence for all three
levels, and for debug the leading marker is that same reset sequence, while
info leads with the 93 color code and error with the 91 color code. -/
theorem streamlog.reset_markers_shared (t : String) :
    streamlog.debug t
        = [SinkCall.screenDebug (streamlog.reset ++ t ++ streamlog.reset),
           SinkCall.loggerDebug t]
  ∧ streamlog.info t
        = [SinkCall.screenInfo ("\x1b[93m" ++ t ++ streamlog.reset),
           SinkCall.loggerInfo t]
  ∧ streamlog.error t
        = [SinkCall.screenError ("\x1b[91m" ++ t ++ streamlog.reset),
           SinkCall.loggerError t]
  ∧ streamlog.reset = "\x1b[00m" :=
  ⟨rfl, rfl, rfl, rfl⟩
